import Mathlib

/-
  Verification development for the Sparkify data-lake ETL (etl.py).

  The pipeline is a sequence of declarative relational operations (project,
  filter, deduplicate, join, partitioned write) over two JSON record
  families.  We embed the dataframes as Lean lists of records, the nullable
  columns as Option-typed fields, and each relational operation of etl.py
  as a list function.  DoubleType payload columns (duration, latitude,
  longitude, length, registration) are carried as Option Rat values; no
  pipeline stage computes on them, they are only projected through.
  The ts column (LongType, epoch milliseconds) is carried as Nat: every
  epoch-millisecond value the pipeline handles is nonnegative.
-/

/- ===== Calendar arithmetic =====
   The timestamp udf in etl.py (line 128-129) is datetime.fromtimestamp
   applied to ts / 1000, i.e. the epoch-millisecond count divided by 1000,
   yielding a naive timestamp with seconds and microseconds.  The Spark SQL
   functions hour, dayofmonth, weekofyear, month, year, dayofweek (lines
   132-139, 161-162) decompose such a timestamp by the proleptic Gregorian
   calendar; we embed that decomposition explicitly. -/

/-- A naive timestamp: seconds since the epoch plus microseconds, as
    produced by datetime.fromtimestamp on a nonnegative value. -/
structure Timestamp where
  sec : Nat
  usec : Nat
  deriving DecidableEq

/-- The timestamp udf of etl.py line 128-129: divide the raw
    epoch-millisecond count by 1000; the integer part becomes the seconds,
    the remainder the microseconds of the naive timestamp. -/
def getTimestamp (tsMs : Nat) : Timestamp :=
  ⟨tsMs / 1000, tsMs % 1000 * 1000⟩

/-- Gregorian leap-year rule. -/
def isLeap (y : Nat) : Bool :=
  (y % 4 == 0 && y % 100 != 0) || y % 400 == 0

def daysInYear (y : Nat) : Nat :=
  if isLeap y then 366 else 365

/-- Walk forward from a base year, consuming whole years from a day count.
    Fuel-guarded structural recursion so that the kernel can evaluate it;
    fuel at least days + 1 always suffices because every step consumes at
    least 365 days. -/
def yearAndDoyFuel : Nat → Nat → Nat → Nat × Nat
  | 0, y, days => (y, days)
  | fuel + 1, y, days =>
    if days < daysInYear y then (y, days)
    else yearAndDoyFuel fuel (y + 1) (days - daysInYear y)

/-- Year and zero-based day-of-year of a day count from 1970-01-01. -/
def yearAndDoy (days : Nat) : Nat × Nat :=
  yearAndDoyFuel (days + 1) 1970 days

/-- The Gregorian month lengths of a year. -/
def monthLengths (leap : Bool) : List Nat :=
  [31, if leap then 29 else 28, 31, 30, 31, 30, 31, 31, 30, 31, 30, 31]

/-- Walk the month lengths, consuming whole months from a day-of-year
    count; m is the one-based number of the first month of the list. -/
def monthFromDoy : List Nat → Nat → Nat → Nat × Nat
  | [], m, doy => (m, doy + 1)
  | len :: rest, m, doy =>
    if doy < len then (m, doy + 1)
    else monthFromDoy rest (m + 1) (doy - len)

/-- Month (1-12) and day-of-month (1-31) from the leap flag and the
    zero-based day-of-year. -/
def monthAndDay (leap : Bool) (doy : Nat) : Nat × Nat :=
  monthFromDoy (monthLengths leap) 1 doy

def daysFromEpoch (t : Timestamp) : Nat := t.sec / 86400

def secondOfDay (t : Timestamp) : Nat := t.sec % 86400

/-- Spark SQL year(timestamp). -/
def yearOf (t : Timestamp) : Nat := (yearAndDoy (daysFromEpoch t)).1

/-- Zero-based day-of-year of a timestamp. -/
def doyOf (t : Timestamp) : Nat := (yearAndDoy (daysFromEpoch t)).2

/-- Spark SQL month(timestamp), in 1-12. -/
def monthOf (t : Timestamp) : Nat := (monthAndDay (isLeap (yearOf t)) (doyOf t)).1

/-- Spark SQL dayofmonth(timestamp), in 1-31. -/
def dayOf (t : Timestamp) : Nat := (monthAndDay (isLeap (yearOf t)) (doyOf t)).2

/-- Spark SQL hour(timestamp), in 0-23. -/
def hourOf (t : Timestamp) : Nat := secondOfDay t / 3600

/-- Spark SQL dayofweek(timestamp): 1 = Sunday .. 7 = Saturday.
    1970-01-01 was a Thursday, so day 0 maps to 5. -/
def dayofweek (t : Timestamp) : Nat := (daysFromEpoch t + 4) % 7 + 1

/-- ISO weekday: 1 = Monday .. 7 = Sunday; 1970-01-01 (Thursday) maps to 4. -/
def isoWeekday (t : Timestamp) : Nat := (daysFromEpoch t + 3) % 7 + 1

/-- Weekday anchor used by the ISO long-year rule: a year has 53 ISO weeks
    iff this value is 4 for the year or 3 for the preceding year. -/
def pCal (y : Nat) : Nat := (y + y / 4 - y / 100 + y / 400) % 7

def isLongIsoYear (y : Nat) : Bool := pCal y == 4 || pCal (y - 1) == 3

def isoWeeksInYear (y : Nat) : Nat := if isLongIsoYear y then 53 else 52

/-- Spark SQL weekofyear(timestamp): the ISO-8601 week number. -/
def weekofyear (t : Timestamp) : Nat :=
  let y := yearOf t
  let doy1 := doyOf t + 1
  let wd := isoWeekday t
  let w := (10 + doy1 - wd) / 7
  if w = 0 then isoWeeksInYear (y - 1)
  else if w > isoWeeksInYear y then 1
  else w

/- ===== Input record shapes (Schema Registry) =====
   One structure per registered read schema; every field is nullable in the
   schema, hence Option-typed here. -/

/-- A song (catalog) JSON record under the schema of etl.py lines 39-50. -/
structure SongRecord where
  num_songs : Option Int
  artist_id : Option String
  artist_latitude : Option Rat
  artist_longitude : Option Rat
  artist_location : Option String
  artist_name : Option String
  song_id : Option String
  title : Option String
  duration : Option Rat
  year : Option Int
  deriving DecidableEq

/-- A log (event) JSON record under the schema of etl.py lines 90-109. -/
structure LogRecord where
  artist : Option String
  auth : Option String
  firstName : Option String
  gender : Option String
  itemInSession : Option Int
  lastName : Option String
  length : Option Rat
  level : Option String
  location : Option String
  method : Option String
  page : Option String
  registration : Option Rat
  sessionId : Option Int
  song : Option String
  status : Option Int
  ts : Option Nat
  userAgent : Option String
  userId : Option String
  deriving DecidableEq

/- ===== dropDuplicates =====
   Spark dropDuplicates([k]) keeps exactly one row per key value; which of
   several duplicates survives is engine-dependent.  We embed the
   keep-first-occurrence linearization; every claim under examination
   depends only on the at-most-one-row-per-key property. -/

def dedupByAux {α κ : Type} [DecidableEq κ] (key : α → κ) (seen : List κ) :
    List α → List α
  | [] => []
  | r :: rs =>
    if key r ∈ seen then dedupByAux key seen rs
    else r :: dedupByAux key (key r :: seen) rs

def dedupBy {α κ : Type} [DecidableEq κ] (key : α → κ) (l : List α) : List α :=
  dedupByAux key [] l

/- ===== Dimension tables (process_song_data, etl.py lines 29-77) ===== -/

/-- A row of the songs dimension table: the selectExpr projection of
    etl.py lines 53-59. -/
structure SongRow where
  song_id : Option String
  title : Option String
  artist_id : Option String
  year : Option Int
  duration : Option Rat
  deriving DecidableEq

/-- etl.py lines 53-59: project the five song columns, then
    dropDuplicates on song_id. -/
def songsTable (catalog : List SongRecord) : List SongRow :=
  dedupBy (fun s => s.song_id)
    (catalog.map fun r => ⟨r.song_id, r.title, r.artist_id, r.year, r.duration⟩)

/-- A row of the artists dimension table: the selectExpr projection of
    etl.py lines 67-73, with the artist_ columns renamed. -/
structure ArtistRow where
  artist_id : Option String
  name : Option String
  location : Option String
  latitude : Option Rat
  longitude : Option Rat
  deriving DecidableEq

/-- etl.py lines 67-73: project and rename the five artist columns, then
    dropDuplicates on artist_id. -/
def artistsTable (catalog : List SongRecord) : List ArtistRow :=
  dedupBy (fun a => a.artist_id)
    (catalog.map fun r =>
      ⟨r.artist_id, r.artist_name, r.artist_location, r.artist_latitude,
        r.artist_longitude⟩)

/- ===== Event filter and log-side tables (process_log_data, lines 80-175) ===== -/

/-- etl.py line 112: df.filter on the SQL condition page == "NextSong".
    SQL equality is null-rejecting, so a record with a null page field is
    discarded; Option.beq returns false for none == some _, matching that. -/
def filteredLogs (logs : List LogRecord) : List LogRecord :=
  logs.filter fun e => e.page == some "NextSong"

/-- A row of the users dimension table: the selectExpr projection of
    etl.py lines 115-121. -/
structure UserRow where
  user_id : Option String
  first_name : Option String
  last_name : Option String
  gender : Option String
  level : Option String
  deriving DecidableEq

/-- etl.py lines 115-121: project and rename the five user columns from the
    filtered events, then dropDuplicates on user_id. -/
def usersTable (logs : List LogRecord) : List UserRow :=
  dedupBy (fun u => u.user_id)
    ((filteredLogs logs).map fun e =>
      ⟨e.userId, e.firstName, e.lastName, e.gender, e.level⟩)

/-- etl.py line 129: the derived timestamp column, null-propagating over a
    null ts.  (On a null ts the Python udf itself would raise; no claim
    under examination exercises that path.) -/
def timestampCol (e : LogRecord) : Option Timestamp :=
  e.ts.map getTimestamp

/-- A row of the time dimension table: the selectExpr projection of
    etl.py lines 132-140. -/
structure TimeRow where
  start_time : Option Timestamp
  hour : Option Nat
  day : Option Nat
  week : Option Nat
  month : Option Nat
  year : Option Nat
  weekday : Option Nat
  deriving DecidableEq

/-- One time-table row from one filtered event (etl.py lines 132-139):
    each calendar field is the corresponding Spark SQL function applied to
    the derived timestamp column. -/
def mkTimeRow (e : LogRecord) : TimeRow :=
  { start_time := timestampCol e
    hour := (timestampCol e).map hourOf
    day := (timestampCol e).map dayOf
    week := (timestampCol e).map weekofyear
    month := (timestampCol e).map monthOf
    year := (timestampCol e).map yearOf
    weekday := (timestampCol e).map dayofweek }

/-- etl.py lines 132-140: build the time rows, then dropDuplicates on
    start_time. -/
def timeTable (logs : List LogRecord) : List TimeRow :=
  dedupBy (fun r => r.start_time) ((filteredLogs logs).map mkTimeRow)

/- ===== Fact table (etl.py lines 147-170) ===== -/

/-- The join condition of etl.py line 156, df.song == song_df.title: Spark
    SQL equality under three-valued logic, which yields null (hence drops
    the candidate pair) when either side is null. -/
def titleMatches (eventSong songTitle : Option String) : Bool :=
  match eventSong, songTitle with
  | some a, some b => a == b
  | _, _ => false

/-- The persisted song rows whose title matches the song field of one
    event: the per-event slice of the inner equi-join of line 156. -/
def matchingSongs (e : LogRecord) (songs : List SongRow) : List SongRow :=
  songs.filter fun s => titleMatches e.song s.title

/-- The inner equi-join of etl.py line 156 as a list of matched pairs.
    We take the nested-loop linearization; the engine guarantees only the
    multiset of matches, and no claim depends on their order. -/
def joinedPairs (events : List LogRecord) (songs : List SongRow) :
    List (LogRecord × SongRow) :=
  events.flatMap fun e => (matchingSongs e songs).map fun s => (e, s)

/-- A row of the songplays fact table: the selectExpr projection of
    etl.py lines 158-170. -/
structure FactRow where
  songplay_id : Nat
  start_time : Option Timestamp
  year : Option Nat
  month : Option Nat
  user_id : Option String
  level : Option String
  song_id : Option String
  artist_id : Option String
  session_id : Option Int
  location : Option String
  user_agent : Option String
  deriving DecidableEq

/-- One fact row from one matched pair (etl.py lines 158-170); year and
    month are year(timestamp) and month(timestamp) computed from the same
    derived timestamp column that becomes start_time. -/
def mkFactRow (id : Nat) (e : LogRecord) (s : SongRow) : FactRow :=
  { songplay_id := id
    start_time := timestampCol e
    year := (timestampCol e).map yearOf
    month := (timestampCol e).map monthOf
    user_id := e.userId
    level := e.level
    song_id := s.song_id
    artist_id := s.artist_id
    session_id := e.sessionId
    location := e.location
    user_agent := e.userAgent }

/-- etl.py lines 156-170: join the filtered events to the persisted song
    rows on title, attach a surrogate id, and project the fact columns.
    monotonically_increasing_id is partition-dependent; this linearization
    numbers the rows of a single partition consecutively.  Claim C8 treats
    the id generator itself, via monotonicallyIncreasingId below; no other
    claim mentions the id column. -/
def songplaysTable (logs : List LogRecord) (song_df : List SongRow) :
    List FactRow :=
  (joinedPairs (filteredLogs logs) song_df).enum.map fun p =>
    mkFactRow p.1 p.2.1 p.2.2

/- ===== Surrogate id generator (etl.py line 157) =====
   Spark monotonically_increasing_id puts the partition index in the upper
   bits and a per-partition row counter in the lower 33 bits; it guarantees
   uniqueness and monotonic growth within a partition, assuming fewer than
   2^33 rows per partition. -/

def monotonicallyIncreasingId (partitionIndex rowIndex : Nat) : Nat :=
  partitionIndex * 2 ^ 33 + rowIndex

/- ===== Reader options (etl.py lines 39-50 and 90-109) =====
   The Spark json reader parses one record per line unless the multiline
   option is set to true, in which case a record may span several lines.
   The catalog read (lines 39-50) sets no option, so it uses the default
   multiline = false; the event read (line 90) sets multiline to true. -/

structure ReaderOptions where
  multiline : Bool
  deriving DecidableEq

/-- The options of the catalog (song_data) read, etl.py lines 39-50: no
    option call, hence the default line-delimited mode. -/
def catalogReaderOptions : ReaderOptions := ⟨false⟩

/-- The options of the event (log_data) read, etl.py line 90: the option
    call sets multiline to true. -/
def eventReaderOptions : ReaderOptions := ⟨true⟩

/-- Whether a reader parses a JSON record that spans several source lines
    into a row: exactly when the multiline option is set (Spark json
    source semantics; in the default line-delimited mode such a record is
    not parsed into a row). -/
def acceptsMultilineRecord (opts : ReaderOptions) : Bool := opts.multiline

/- ===== Writer save modes (etl.py lines 62-64, 76-77, 124-125, 143-145,
   173-175) =====
   Every write call in etl.py is DataFrameWriter.parquet with no mode call,
   so each uses the Spark default save mode ErrorIfExists. -/

inductive SaveMode
  | errorIfExists
  | overwrite
  | append
  | ignore
  deriving DecidableEq

/-- etl.py lines 62-64: songs write, no mode set. -/
def songsSaveMode : SaveMode := .errorIfExists

/-- etl.py lines 76-77: artists write, no mode set. -/
def artistsSaveMode : SaveMode := .errorIfExists

/-- etl.py lines 124-125: users write, no mode set. -/
def usersSaveMode : SaveMode := .errorIfExists

/-- etl.py lines 143-145: time write, no mode set. -/
def timeSaveMode : SaveMode := .errorIfExists

/-- etl.py lines 173-175: songplays write, no mode set. -/
def songplaysSaveMode : SaveMode := .errorIfExists

inductive WriteOutcome
  | written
  | failed
  | appended
  | skipped
  deriving DecidableEq

/-- Spark DataFrameWriter semantics: the outcome of a save, as a function
    of the save mode and of whether the target path already holds data. -/
def writeOutcome : SaveMode → Bool → WriteOutcome
  | _, false => .written
  | .errorIfExists, true => .failed
  | .overwrite, true => .written
  | .append, true => .appended
  | .ignore, true => .skipped

/- ===== Concrete sample inputs =====
   Small concrete datasets, used to evaluate the pipeline functions at
   explicit inputs.  The timestamp 1609459200000 ms is
   2021-01-01T00:00:00. -/

def sampleSongRecord : SongRecord :=
  { num_songs := some 1
    artist_id := some "A1"
    artist_latitude := none
    artist_longitude := none
    artist_location := some "LA"
    artist_name := some "The Band"
    song_id := some "S1"
    title := some "Test"
    duration := none
    year := some 2000 }

def sampleCatalog : List SongRecord := [sampleSongRecord]

/-- The songs-table row that sampleSongRecord projects to. -/
def sampleSongRow : SongRow :=
  { song_id := some "S1"
    title := some "Test"
    artist_id := some "A1"
    year := some 2000
    duration := none }

def sampleLogRecord : LogRecord :=
  { artist := some "The Band"
    auth := some "Logged In"
    firstName := some "Ann"
    gender := some "F"
    itemInSession := some 0
    lastName := some "Lee"
    length := none
    level := some "free"
    location := some "Home"
    method := some "PUT"
    page := some "NextSong"
    registration := none
    sessionId := some 1
    song := some "Test"
    status := some 200
    ts := some 1609459200000
    userAgent := some "UA"
    userId := some "U1" }

def sampleLogs : List LogRecord := [sampleLogRecord]

/-- A NextSong event whose song title matches no catalog title. -/
def unmatchedLogRecord : LogRecord :=
  { sampleLogRecord with song := some "Missing", ts := some 1609459260000 }

/-- A NextSong event with a null song field. -/
def nullSongLogRecord : LogRecord :=
  { sampleLogRecord with song := none }

/-- A song row with a null title. -/
def nullTitleSongRow : SongRow :=
  { song_id := some "S2"
    title := none
    artist_id := some "A2"
    year := some 0
    duration := none }

/- ===== Helper lemmas: deduplication ===== -/

theorem mem_of_mem_dedupByAux {α κ : Type} [DecidableEq κ] (key : α → κ) :
    ∀ (l : List α) (seen : List κ) (x : α), x ∈ dedupByAux key seen l → x ∈ l := by
  intro l
  induction l with
  | nil => intro seen x h; simp [dedupByAux] at h
  | cons r rs ih =>
    intro seen x h
    simp only [dedupByAux] at h
    split at h
    · exact List.mem_cons_of_mem _ (ih _ _ h)
    · rcases List.mem_cons.mp h with h1 | h2
      · exact h1 ▸ List.mem_cons_self r rs
      · exact List.mem_cons_of_mem _ (ih _ _ h2)

theorem key_not_seen_of_mem_dedupByAux {α κ : Type} [DecidableEq κ] (key : α → κ) :
    ∀ (l : List α) (seen : List κ) (x : α),
      x ∈ dedupByAux key seen l → key x ∉ seen := by
  intro l
  induction l with
  | nil => intro seen x h; simp [dedupByAux] at h
  | cons r rs ih =>
    intro seen x h
    simp only [dedupByAux] at h
    split at h
    · exact ih _ _ h
    · rcases List.mem_cons.mp h with h1 | h2
      · subst h1; assumption
      · intro hmem
        exact ih _ _ h2 (List.mem_cons_of_mem _ hmem)

theorem pairwise_dedupByAux {α κ : Type} [DecidableEq κ] (key : α → κ) :
    ∀ (l : List α) (seen : List κ),
      (dedupByAux key seen l).Pairwise fun a b => key a ≠ key b := by
  intro l
  induction l with
  | nil => intro seen; simp [dedupByAux]
  | cons r rs ih =>
    intro seen
    simp only [dedupByAux]
    split
    · exact ih seen
    · refine List.Pairwise.cons ?_ (ih _)
      intro b hb hkey
      exact key_not_seen_of_mem_dedupByAux key _ _ _ hb
        (hkey ▸ List.mem_cons_self _ _)

theorem pairwise_dedupBy {α κ : Type} [DecidableEq κ] (key : α → κ) (l : List α) :
    (dedupBy key l).Pairwise fun a b => key a ≠ key b :=
  pairwise_dedupByAux key l []

theorem mem_of_mem_dedupBy {α κ : Type} [DecidableEq κ] (key : α → κ)
    (l : List α) (x : α) (h : x ∈ dedupBy key l) : x ∈ l :=
  mem_of_mem_dedupByAux key l [] x h

theorem eq_of_mem_dedupBy_key_eq {α κ : Type} [DecidableEq κ] (key : α → κ)
    (l : List α) {a b : α} (ha : a ∈ dedupBy key l) (hb : b ∈ dedupBy key l)
    (hk : key a = key b) : a = b := by
  by_contra hne
  have hsym : Symmetric fun a b : α => key a ≠ key b := by
    intro x y h e
    exact h e.symm
  exact (pairwise_dedupBy key l).forall hsym ha hb hne hk

theorem nodup_dedupBy {α κ : Type} [DecidableEq κ] (key : α → κ) (l : List α) :
    (dedupBy key l).Nodup :=
  (pairwise_dedupBy key l).imp fun h e => h (congrArg key e)

/- ===== Helper lemmas: counting ===== -/

theorem countP_flatMap {α β : Type} (p : β → Bool) (f : α → List β) :
    ∀ l : List α,
      (l.flatMap f).countP p = (l.map fun e => (f e).countP p).sum := by
  intro l
  induction l with
  | nil => simp
  | cons e es ih => simp [List.flatMap_cons, List.countP_append, ih]

theorem countP_enumFrom {α : Type} (q : α → Bool) :
    ∀ (l : List α) (n : Nat),
      ((l.enumFrom n).countP fun p => q p.2) = l.countP q := by
  intro l
  induction l with
  | nil => simp
  | cons a as ih =>
    intro n
    simp [List.enumFrom_cons, List.countP_cons, ih]

theorem sum_map_of_count_ite {α : Type} (p : α → Bool) (cnt : α → Nat) :
    ∀ l : List α, (∀ e ∈ l, cnt e = if p e then 1 else 0) →
      (l.map cnt).sum = l.countP p := by
  intro l
  induction l with
  | nil => intro _; simp
  | cons e es ih =>
    intro h
    simp only [List.map_cons, List.sum_cons, List.countP_cons]
    rw [h e (List.mem_cons_self e es),
      ih fun x hx => h x (List.mem_cons_of_mem _ hx)]
    split <;> omega

/- ===== Helper lemmas: the join condition ===== -/

theorem titleMatches_none_left (t : Option String) :
    titleMatches none t = false := by
  cases t <;> rfl

theorem titleMatches_none_right (a : Option String) :
    titleMatches a none = false := by
  cases a <;> rfl

theorem titleMatches_eq_true {a b : Option String} :
    titleMatches a b = true ↔ ∃ x, a = some x ∧ b = some x := by
  cases a <;> cases b <;> simp [titleMatches]
  exact eq_comm

/- ===== Helper lemmas: calendar bounds ===== -/

theorem daysInYear_ge (y : Nat) : 365 ≤ daysInYear y := by
  unfold daysInYear
  split <;> omega

theorem yearAndDoyFuel_snd_lt :
    ∀ (fuel y days : Nat), days < fuel →
      (yearAndDoyFuel fuel y days).2 <
        daysInYear (yearAndDoyFuel fuel y days).1 := by
  intro fuel
  induction fuel with
  | zero => intro y days h; omega
  | succ f ih =>
    intro y days h
    simp only [yearAndDoyFuel]
    split
    · next hlt => exact hlt
    · next hge =>
      apply ih
      have := daysInYear_ge y
      omega

theorem doyOf_lt (t : Timestamp) : doyOf t < daysInYear (yearOf t) := by
  have h := yearAndDoyFuel_snd_lt (daysFromEpoch t + 1) 1970 (daysFromEpoch t)
    (by omega)
  simpa [doyOf, yearOf, yearAndDoy] using h

theorem monthFromDoy_bounds :
    ∀ (ls : List Nat) (m doy : Nat), (∀ len ∈ ls, len ≤ 31) → doy < ls.sum →
      m ≤ (monthFromDoy ls m doy).1 ∧
        (monthFromDoy ls m doy).1 < m + ls.length ∧
        1 ≤ (monthFromDoy ls m doy).2 ∧
        (monthFromDoy ls m doy).2 ≤ 31 := by
  intro ls
  induction ls with
  | nil =>
    intro m doy _ h
    simp at h
  | cons len rest ih =>
    intro m doy hle h
    simp only [monthFromDoy]
    split
    · next hlt =>
      have h31 := hle len (List.mem_cons_self _ _)
      refine ⟨Nat.le_refl m, ?_, ?_, ?_⟩
      · simp only [List.length_cons]
        omega
      · omega
      · exact Nat.succ_le_of_lt (Nat.lt_of_lt_of_le hlt h31)
    · next hge =>
      have h2 : doy - len < rest.sum := by
        simp only [List.sum_cons] at h
        omega
      obtain ⟨b1, b2, b3, b4⟩ :=
        ih (m + 1) (doy - len) (fun l hl => hle l (List.mem_cons_of_mem _ hl)) h2
      simp only [List.length_cons]
      refine ⟨by omega, by omega, b3, b4⟩

theorem monthAndDay_bounds (leap : Bool) (doy : Nat)
    (h : doy < if leap then 366 else 365) :
    1 ≤ (monthAndDay leap doy).1 ∧ (monthAndDay leap doy).1 ≤ 12 ∧
      1 ≤ (monthAndDay leap doy).2 ∧ (monthAndDay leap doy).2 ≤ 31 := by
  unfold monthAndDay
  have hsum : doy < (monthLengths leap).sum := by
    cases leap <;> simpa [monthLengths] using h
  have hle : ∀ len ∈ monthLengths leap, len ≤ 31 := by
    cases leap <;> decide
  obtain ⟨b1, b2, b3, b4⟩ := monthFromDoy_bounds (monthLengths leap) 1 doy hle hsum
  have hlen : (monthLengths leap).length = 12 := by
    cases leap <;> rfl
  rw [hlen] at b2
  exact ⟨b1, by omega, b3, b4⟩

theorem month_day_of_bounds (t : Timestamp) :
    1 ≤ monthOf t ∧ monthOf t ≤ 12 ∧ 1 ≤ dayOf t ∧ dayOf t ≤ 31 := by
  have h := doyOf_lt t
  have hb := monthAndDay_bounds (isLeap (yearOf t)) (doyOf t)
    (by simpa [daysInYear] using h)
  simpa [monthOf, dayOf] using hb

theorem hourOf_lt (t : Timestamp) : hourOf t < 24 := by
  unfold hourOf secondOfDay
  omega

/- ===== Claim theorems ===== -/

/-- C1: for every run, after deduplication each dimension table has
    pairwise-distinct natural keys: no two rows of the songs table share a
    song_id, no two rows of the artists table share an artist_id, and no
    two rows of the users table share a user_id. -/
theorem dimension_natural_keys_unique
    (catalog : List SongRecord) (logs : List LogRecord) :
    ((songsTable catalog).Pairwise fun a b => a.song_id ≠ b.song_id) ∧
      ((artistsTable catalog).Pairwise fun a b => a.artist_id ≠ b.artist_id) ∧
      ((usersTable logs).Pairwise fun a b => a.user_id ≠ b.user_id) :=
  ⟨pairwise_dedupBy _ _, pairwise_dedupBy _ _, pairwise_dedupBy _ _⟩

/-- C5: an event record is retained by the filter feeding the users, time
    and songplays builders if and only if its page field equals the
    literal string NextSong; every other record is discarded.  (The three
    builders usersTable, timeTable and songplaysTable all consume
    filteredLogs and nothing else consumes the unfiltered read.) -/
theorem nextSong_admission (logs : List LogRecord) (e : LogRecord) :
    e ∈ filteredLogs logs ↔ e ∈ logs ∧ e.page = some "NextSong" := by
  simp [filteredLogs, List.mem_filter]

/-- C5 witness: the admission rule evaluated at the concrete sample log. -/
theorem nextSong_admission_witness :
    sampleLogRecord ∈ filteredLogs sampleLogs ↔
      sampleLogRecord ∈ sampleLogs ∧ sampleLogRecord.page = some "NextSong" :=
  nextSong_admission sampleLogs sampleLogRecord

/-- C7 counterexample: it is not the case that both readers accept
    multiline JSON records; the catalog read of etl.py lines 39-50 sets no
    multiline option and therefore runs in the default line-delimited
    mode. -/
theorem multiline_both_readers_false :
    ¬ (acceptsMultilineRecord catalogReaderOptions = true ∧
        acceptsMultilineRecord eventReaderOptions = true) := by
  decide

/-- C7 amended: the Event Reader accepts multiline JSON records (etl.py
    line 90 sets the multiline option to true), while the Catalog Reader
    runs in the default line-delimited mode and does not parse a record
    that spans several lines into a row. -/
theorem multiline_event_reader_only :
    acceptsMultilineRecord eventReaderOptions = true ∧
      acceptsMultilineRecord catalogReaderOptions = false := by
  decide

/-- C8: the surrogate songplay ids are pairwise distinct across partitions
    (given fewer than 2 to the 33 rows per partition, the documented
    engine bound) and strictly increasing in the row counter within one
    partition. -/
theorem songplay_id_distinct_and_increasing (p₁ r₁ p₂ r₂ : Nat)
    (h₁ : r₁ < 2 ^ 33) (h₂ : r₂ < 2 ^ 33) :
    (¬(p₁ = p₂ ∧ r₁ = r₂) →
        monotonicallyIncreasingId p₁ r₁ ≠ monotonicallyIncreasingId p₂ r₂) ∧
      (p₁ = p₂ → r₁ < r₂ →
        monotonicallyIncreasingId p₁ r₁ < monotonicallyIncreasingId p₂ r₂) := by
  unfold monotonicallyIncreasingId
  have hpow : (2:Nat) ^ 33 = 8589934592 := by norm_num
  rw [hpow] at h₁ h₂ ⊢
  constructor
  · intro hne heq
    apply hne
    constructor <;> omega
  · intro hp hr
    subst hp
    omega

/-- C8 witness: distinctness and monotonicity evaluated at the concrete
    partition and row indices (1, 0) and (2, 5). -/
theorem songplay_id_distinct_and_increasing_witness :
    (0:Nat) < 2 ^ 33 ∧ (5:Nat) < 2 ^ 33 ∧
      ((¬((1:Nat) = 2 ∧ (0:Nat) = 5) →
          monotonicallyIncreasingId 1 0 ≠ monotonicallyIncreasingId 2 5) ∧
        ((1:Nat) = 2 → (0:Nat) < 5 →
          monotonicallyIncreasingId 1 0 < monotonicallyIncreasingId 2 5)) :=
  ⟨by norm_num, by norm_num,
    songplay_id_distinct_and_increasing 1 0 2 5 (by norm_num) (by norm_num)⟩

/-- C9 counterexample: on a rerun against an existing output target the
    songs write fails instead of overwriting: no write in etl.py sets a
    save mode, so each uses the Spark default ErrorIfExists. -/
theorem rerun_fails_not_overwrites :
    writeOutcome songsSaveMode true = WriteOutcome.failed ∧
      writeOutcome songsSaveMode true ≠ WriteOutcome.written := by
  decide

/-- C9 amended: every table write of etl.py uses the default
    ErrorIfExists save mode; against a fresh target it writes the table,
    against a target that already holds data it fails; it never appends,
    and no entity is updated in place. -/
theorem rerun_write_outcomes :
    songsSaveMode = SaveMode.errorIfExists ∧
      artistsSaveMode = SaveMode.errorIfExists ∧
      usersSaveMode = SaveMode.errorIfExists ∧
      timeSaveMode = SaveMode.errorIfExists ∧
      songplaysSaveMode = SaveMode.errorIfExists ∧
      writeOutcome SaveMode.errorIfExists false = WriteOutcome.written ∧
      writeOutcome SaveMode.errorIfExists true = WriteOutcome.failed := by
  decide

/-- C10: the join condition is null-rejecting: an event with a null song
    field matches no song row, and a song row with a null title occurs in
    no joined pair, even when a null sits on both sides. -/
theorem null_join_rejection (evts : List LogRecord) (songs : List SongRow)
    (e : LogRecord) (s : SongRow)
    (he : e.song = none) (hs : s.title = none) :
    matchingSongs e songs = [] ∧
      titleMatches e.song s.title = false ∧
      ∀ pr ∈ joinedPairs evts songs, pr.2 ≠ s := by
  refine ⟨?_, ?_, ?_⟩
  · rw [matchingSongs, List.filter_eq_nil_iff]
    intro s' _
    rw [he, titleMatches_none_left]
    simp
  · rw [hs, titleMatches_none_right]
  · intro pr hpr heq
    rw [joinedPairs] at hpr
    rcases List.mem_flatMap.mp hpr with ⟨e', _, hpr'⟩
    rcases List.mem_map.mp hpr' with ⟨s', hs', hpr''⟩
    have hmatch := List.of_mem_filter hs'
    rw [← hpr''] at heq
    simp only at heq
    rw [heq, hs, titleMatches_none_right] at hmatch
    exact Bool.false_ne_true hmatch

/-- C10 witness: the null-rejection evaluated at a concrete event with a
    null song field and a concrete song row with a null title. -/
theorem null_join_rejection_witness :
    nullSongLogRecord.song = none ∧ nullTitleSongRow.title = none ∧
      (matchingSongs nullSongLogRecord (songsTable sampleCatalog) = [] ∧
        titleMatches nullSongLogRecord.song nullTitleSongRow.title = false ∧
        ∀ pr ∈ joinedPairs sampleLogs (songsTable sampleCatalog),
          pr.2 ≠ nullTitleSongRow) :=
  ⟨rfl, rfl,
    null_join_rejection sampleLogs (songsTable sampleCatalog)
      nullSongLogRecord nullTitleSongRow rfl rfl⟩

/-- C3: an event whose song title matches no title in the persisted song
    rows contributes zero rows to the fact table; removing it from the
    input leaves the fact table unchanged, and the total join function
    reports no error.  (The inner join of etl.py line 156 drops such
    events silently; songplaysTable is a total function with no error
    channel.) -/
theorem unmatched_event_dropped (l₁ l₂ : List LogRecord) (e : LogRecord)
    (songs : List SongRow)
    (hnm : ∀ s ∈ songs, titleMatches e.song s.title = false) :
    matchingSongs e songs = [] ∧
      songplaysTable (l₁ ++ e :: l₂) songs = songplaysTable (l₁ ++ l₂) songs := by
  have hms : matchingSongs e songs = [] := by
    rw [matchingSongs, List.filter_eq_nil_iff]
    intro s hsmem
    simp [hnm s hsmem]
  refine ⟨hms, ?_⟩
  have key : joinedPairs (filteredLogs (l₁ ++ e :: l₂)) songs =
      joinedPairs (filteredLogs (l₁ ++ l₂)) songs := by
    simp only [filteredLogs, List.filter_append, List.filter_cons]
    split
    · simp [joinedPairs, List.flatMap_append, hms]
    · rfl
  rw [songplaysTable, songplaysTable, key]

/-- C3 witness: the drop rule evaluated at a concrete event whose title
    matches nothing in the sample catalog. -/
theorem unmatched_event_dropped_witness :
    (∀ s ∈ songsTable sampleCatalog,
        titleMatches unmatchedLogRecord.song s.title = false) ∧
      (matchingSongs unmatchedLogRecord (songsTable sampleCatalog) = [] ∧
        songplaysTable ([] ++ unmatchedLogRecord :: sampleLogs)
            (songsTable sampleCatalog) =
          songplaysTable ([] ++ sampleLogs) (songsTable sampleCatalog)) :=
  ⟨by decide, unmatched_event_dropped [] sampleLogs unmatchedLogRecord
    (songsTable sampleCatalog) (by decide)⟩

/-- C4: every fact-table row carries year and month columns equal to the
    calendar decomposition of its own start_time (etl.py lines 160-162
    compute all three from the same derived timestamp column). -/
theorem fact_year_month_consistent (logs : List LogRecord)
    (songs : List SongRow) (r : FactRow)
    (hr : r ∈ songplaysTable logs songs) :
    r.year = r.start_time.map yearOf ∧ r.month = r.start_time.map monthOf := by
  unfold songplaysTable at hr
  rcases List.mem_map.mp hr with ⟨p, _, rfl⟩
  exact ⟨rfl, rfl⟩

/-- C4 witness: year and month consistency evaluated on the concrete fact
    row the sample inputs produce. -/
theorem fact_year_month_consistent_witness :
    (mkFactRow 0 sampleLogRecord sampleSongRow ∈
        songplaysTable sampleLogs (songsTable sampleCatalog)) ∧
      ((mkFactRow 0 sampleLogRecord sampleSongRow).year =
          (mkFactRow 0 sampleLogRecord sampleSongRow).start_time.map yearOf ∧
        (mkFactRow 0 sampleLogRecord sampleSongRow).month =
          (mkFactRow 0 sampleLogRecord sampleSongRow).start_time.map monthOf) :=
  ⟨by decide,
    fact_year_month_consistent sampleLogs (songsTable sampleCatalog)
      (mkFactRow 0 sampleLogRecord sampleSongRow) (by decide)⟩

/-- C6: every time-table row comes from a retained event whose start_time
    is the raw epoch-millisecond ts divided by 1000 assembled into a naive
    timestamp, and its six derived fields equal the calendar decomposition
    of that start_time, with hour in 0-23, day-of-month in 1-31, the ISO
    week-of-year, month in 1-12, the year, and the weekday index. -/
theorem time_fields_derived (logs : List LogRecord) (row : TimeRow)
    (hrow : row ∈ timeTable logs) :
    (∃ e ∈ filteredLogs logs,
        row.start_time = e.ts.map getTimestamp ∧
          ∀ m, e.ts = some m →
            row.start_time = some ⟨m / 1000, m % 1000 * 1000⟩) ∧
      row.hour = row.start_time.map hourOf ∧
      row.day = row.start_time.map dayOf ∧
      row.week = row.start_time.map weekofyear ∧
      row.month = row.start_time.map monthOf ∧
      row.year = row.start_time.map yearOf ∧
      row.weekday = row.start_time.map dayofweek ∧
      ∀ t, row.start_time = some t →
        hourOf t < 24 ∧ 1 ≤ dayOf t ∧ dayOf t ≤ 31 ∧
          1 ≤ monthOf t ∧ monthOf t ≤ 12 := by
  have hmem := mem_of_mem_dedupBy _ _ _ hrow
  rcases List.mem_map.mp hmem with ⟨e, he, rfl⟩
  refine ⟨⟨e, he, rfl, ?_⟩, rfl, rfl, rfl, rfl, rfl, rfl, ?_⟩
  · intro m hm
    simp [mkTimeRow, timestampCol, hm, getTimestamp]
  · intro t _
    obtain ⟨b1, b2, b3, b4⟩ := month_day_of_bounds t
    exact ⟨hourOf_lt t, b3, b4, b1, b2⟩

/-- C6 witness: the time-table properties evaluated at the concrete row
    the sample log produces. -/
theorem time_fields_derived_witness :
    (mkTimeRow sampleLogRecord ∈ timeTable sampleLogs) ∧
      ((∃ e ∈ filteredLogs sampleLogs,
          (mkTimeRow sampleLogRecord).start_time = e.ts.map getTimestamp ∧
            ∀ m, e.ts = some m →
              (mkTimeRow sampleLogRecord).start_time =
                some ⟨m / 1000, m % 1000 * 1000⟩) ∧
        (mkTimeRow sampleLogRecord).hour =
          (mkTimeRow sampleLogRecord).start_time.map hourOf ∧
        (mkTimeRow sampleLogRecord).day =
          (mkTimeRow sampleLogRecord).start_time.map dayOf ∧
        (mkTimeRow sampleLogRecord).week =
          (mkTimeRow sampleLogRecord).start_time.map weekofyear ∧
        (mkTimeRow sampleLogRecord).month =
          (mkTimeRow sampleLogRecord).start_time.map monthOf ∧
        (mkTimeRow sampleLogRecord).year =
          (mkTimeRow sampleLogRecord).start_time.map yearOf ∧
        (mkTimeRow sampleLogRecord).weekday =
          (mkTimeRow sampleLogRecord).start_time.map dayofweek ∧
        ∀ t, (mkTimeRow sampleLogRecord).start_time = some t →
          hourOf t < 24 ∧ 1 ≤ dayOf t ∧ dayOf t ≤ 31 ∧
            1 ≤ monthOf t ∧ monthOf t ≤ 12) :=
  ⟨by decide, time_fields_derived sampleLogs (mkTimeRow sampleLogRecord)
    (by decide)⟩

/- ===== Helper lemmas for the join-correctness claim ===== -/

theorem songsTable_nodup (catalog : List SongRecord) :
    (songsTable catalog).Nodup :=
  nodup_dedupBy _ _

theorem songsTable_key_inj (catalog : List SongRecord) {a b : SongRow}
    (ha : a ∈ songsTable catalog) (hb : b ∈ songsTable catalog)
    (h : a.song_id = b.song_id) : a = b :=
  eq_of_mem_dedupBy_key_eq _ _ ha hb h

/-- The fact-count contribution of one retained event whose song title is
    the unique title X: exactly one matching song row survives the
    projection test. -/
theorem countP_matching_hit (catalog : List SongRecord) (X : String) (T : Nat)
    (s : SongRow) (hs : s ∈ songsTable catalog) (hsX : s.title = some X)
    (e : LogRecord) (heX : e.song = some X) (heT : e.ts = some T) :
    ((matchingSongs e (songsTable catalog)).countP fun s' =>
        (timestampCol e == some (getTimestamp T)) &&
          (s'.song_id == s.song_id) && (s'.artist_id == s.artist_id)) = 1 := by
  have hts : timestampCol e = some (getTimestamp T) := by
    rw [timestampCol, heT]
    rfl
  have hmem_s : s ∈ matchingSongs e (songsTable catalog) := by
    apply List.mem_filter.mpr
    refine ⟨hs, ?_⟩
    rw [heX, hsX]
    simp [titleMatches]
  have hstep : ∀ s' ∈ matchingSongs e (songsTable catalog),
      ((timestampCol e == some (getTimestamp T)) &&
          (s'.song_id == s.song_id) && (s'.artist_id == s.artist_id)) =
        (s' == s) := by
    intro s' hs'
    have hmem : s' ∈ songsTable catalog := List.mem_of_mem_filter hs'
    rcases Bool.eq_false_or_eq_true (s' == s) with hb | hb
    · rw [hb]
      have heq : s' = s := by simpa using hb
      subst heq
      simp [hts]
    · rw [hb]
      rw [Bool.eq_false_iff]
      intro htrue
      simp only [Bool.and_eq_true, beq_iff_eq] at htrue
      obtain ⟨⟨-, hid⟩, -⟩ := htrue
      have heq : s' = s := songsTable_key_inj catalog hmem hs hid
      rw [heq] at hb
      simp at hb
  have hcong : ((matchingSongs e (songsTable catalog)).countP fun s' =>
      (timestampCol e == some (getTimestamp T)) &&
        (s'.song_id == s.song_id) && (s'.artist_id == s.artist_id)) =
      ((matchingSongs e (songsTable catalog)).countP fun s' => s' == s) :=
    List.countP_congr fun x hx => by rw [hstep x hx]
  rw [hcong]
  exact List.count_eq_one_of_mem
    (List.Nodup.filter _ (songsTable_nodup catalog)) hmem_s

/-- The fact-count contribution of one retained event whose song title is
    not the unique title X: no matching song row survives the projection
    test, because the only row with the matched song_id has title X. -/
theorem countP_matching_miss (catalog : List SongRecord) (X : String) (T : Nat)
    (s : SongRow) (hs : s ∈ songsTable catalog) (hsX : s.title = some X)
    (e : LogRecord) (heX : e.song ≠ some X) :
    ((matchingSongs e (songsTable catalog)).countP fun s' =>
        (timestampCol e == some (getTimestamp T)) &&
          (s'.song_id == s.song_id) && (s'.artist_id == s.artist_id)) = 0 := by
  rw [List.countP_eq_zero]
  intro s' hs' hpred
  have hmem : s' ∈ songsTable catalog := List.mem_of_mem_filter hs'
  simp only [Bool.and_eq_true, beq_iff_eq] at hpred
  obtain ⟨⟨-, hid⟩, -⟩ := hpred
  have heq : s' = s := songsTable_key_inj catalog hmem hs hid
  subst heq
  have hmatch := List.of_mem_filter hs'
  rw [hsX] at hmatch
  rcases titleMatches_eq_true.mp hmatch with ⟨x, hex, hxx⟩
  injection hxx with hxX
  exact heX (hxX ▸ hex)

/-- The fact-table count of any id-independent row predicate, decomposed
    into per-event counts over the matching song rows. -/
theorem countP_songplaysTable (logs : List LogRecord) (songs : List SongRow)
    (q : FactRow → Bool)
    (hq : ∀ (i : Nat) (e : LogRecord) (s : SongRow),
      q (mkFactRow i e s) = q (mkFactRow 0 e s)) :
    (songplaysTable logs songs).countP q =
      ((filteredLogs logs).map fun e =>
        (matchingSongs e songs).countP fun s => q (mkFactRow 0 e s)).sum := by
  have step1 : (songplaysTable logs songs).countP q =
      ((joinedPairs (filteredLogs logs) songs).enumFrom 0).countP
        fun p => q (mkFactRow p.1 p.2.1 p.2.2) :=
    List.countP_map q _ _
  have step2 : ((joinedPairs (filteredLogs logs) songs).enumFrom 0).countP
      (fun p => q (mkFactRow p.1 p.2.1 p.2.2)) =
      ((joinedPairs (filteredLogs logs) songs).enumFrom 0).countP
        fun p => q (mkFactRow 0 p.2.1 p.2.2) :=
    List.countP_congr fun x hx => by
      show (q (mkFactRow x.1 x.2.1 x.2.2) = true) ↔
        (q (mkFactRow 0 x.2.1 x.2.2) = true)
      rw [hq x.1 x.2.1 x.2.2]
  have step3 : (((joinedPairs (filteredLogs logs) songs).enumFrom 0).countP
      fun p => q (mkFactRow 0 p.2.1 p.2.2)) =
      (joinedPairs (filteredLogs logs) songs).countP
        fun pr => q (mkFactRow 0 pr.1 pr.2) :=
    countP_enumFrom (fun pr : LogRecord × SongRow => q (mkFactRow 0 pr.1 pr.2))
      _ 0
  have step4 : ((joinedPairs (filteredLogs logs) songs).countP
      fun pr => q (mkFactRow 0 pr.1 pr.2)) =
      ((filteredLogs logs).map fun e =>
        ((matchingSongs e songs).map fun s => (e, s)).countP
          fun pr => q (mkFactRow 0 pr.1 pr.2)).sum :=
    countP_flatMap _ _ _
  have step5 : (((filteredLogs logs).map fun e =>
      ((matchingSongs e songs).map fun s => (e, s)).countP
        fun pr => q (mkFactRow 0 pr.1 pr.2)).sum) =
      ((filteredLogs logs).map fun e =>
        (matchingSongs e songs).countP fun s => q (mkFactRow 0 e s)).sum := by
    apply congrArg List.sum
    apply List.map_congr_left
    intro e _
    exact List.countP_map _ _ _
  exact step1.trans (step2.trans (step3.trans (step4.trans step5)))

/-- C2: with exactly one retained event carrying the song title X, that
    event at timestamp T, and exactly one persisted song row titled X, the
    fact table holds exactly one row whose start_time is the timestamp
    derived from T and whose song_id and artist_id are those of that song
    row. -/
theorem join_correctness
    (catalog : List SongRecord) (logs : List LogRecord)
    (X : String) (T : Nat) (s : SongRow)
    (hs : s ∈ songsTable catalog)
    (hsX : s.title = some X)
    (_huniqueSong :
      ((songsTable catalog).countP fun s' => s'.title == some X) = 1)
    (huniqueEvent :
      ((filteredLogs logs).countP fun e => e.song == some X) = 1)
    (hts : ∀ e ∈ filteredLogs logs, e.song = some X → e.ts = some T) :
    ((songplaysTable logs (songsTable catalog)).countP fun r =>
        (r.start_time == some (getTimestamp T)) &&
          (r.song_id == s.song_id) && (r.artist_id == s.artist_id)) = 1 := by
  have hbridge : ((songplaysTable logs (songsTable catalog)).countP fun r =>
      (r.start_time == some (getTimestamp T)) &&
        (r.song_id == s.song_id) && (r.artist_id == s.artist_id)) =
      ((filteredLogs logs).map fun e =>
        (matchingSongs e (songsTable catalog)).countP fun s' =>
          (timestampCol e == some (getTimestamp T)) &&
            (s'.song_id == s.song_id) && (s'.artist_id == s.artist_id)).sum :=
    countP_songplaysTable logs (songsTable catalog) _ fun i e s' => rfl
  have hpointwise : ∀ e ∈ filteredLogs logs,
      ((matchingSongs e (songsTable catalog)).countP fun s' =>
        (timestampCol e == some (getTimestamp T)) &&
          (s'.song_id == s.song_id) && (s'.artist_id == s.artist_id)) =
      if (e.song == some X) then 1 else 0 := by
    intro e he
    by_cases hx : e.song = some X
    · have htrue : (e.song == some X) = true := by
        rw [hx]
        exact beq_self_eq_true _
      simp only [htrue]
      exact countP_matching_hit catalog X T s hs hsX e hx (hts e he hx)
    · have hfalse : (e.song == some X) = false := beq_eq_false_iff_ne.mpr hx
      simp only [hfalse]
      exact countP_matching_miss catalog X T s hs hsX e hx
  have hsum := sum_map_of_count_ite (fun e => e.song == some X)
    (fun e => (matchingSongs e (songsTable catalog)).countP fun s' =>
      (timestampCol e == some (getTimestamp T)) &&
        (s'.song_id == s.song_id) && (s'.artist_id == s.artist_id))
    (filteredLogs logs) hpointwise
  exact hbridge.trans (hsum.trans huniqueEvent)

/-- C2 witness: join correctness evaluated at the concrete sample inputs,
    one matching event and one song row titled Test. -/
theorem join_correctness_witness :
    sampleSongRow ∈ songsTable sampleCatalog ∧
      sampleSongRow.title = some "Test" ∧
      ((songsTable sampleCatalog).countP fun s' =>
        s'.title == some "Test") = 1 ∧
      ((filteredLogs sampleLogs).countP fun e =>
        e.song == some "Test") = 1 ∧
      (∀ e ∈ filteredLogs sampleLogs,
        e.song = some "Test" → e.ts = some 1609459200000) ∧
      ((songplaysTable sampleLogs (songsTable sampleCatalog)).countP fun r =>
        (r.start_time == some (getTimestamp 1609459200000)) &&
          (r.song_id == sampleSongRow.song_id) &&
          (r.artist_id == sampleSongRow.artist_id)) = 1 :=
  ⟨by decide, by decide, by decide, by decide, by decide,
    join_correctness sampleCatalog sampleLogs "Test" 1609459200000
      sampleSongRow (by decide) (by decide) (by decide) (by decide)
      (by decide)⟩

/-- C1 witness: key uniqueness evaluated at the concrete sample inputs. -/
theorem dimension_natural_keys_unique_witness :
    ((songsTable sampleCatalog).Pairwise fun a b => a.song_id ≠ b.song_id) ∧
      ((artistsTable sampleCatalog).Pairwise fun a b =>
        a.artist_id ≠ b.artist_id) ∧
      ((usersTable sampleLogs).Pairwise fun a b => a.user_id ≠ b.user_id) :=
  dimension_natural_keys_unique sampleCatalog sampleLogs
